import Mathlib

/-!
Verification of the Job_card_system Zoho gateway and invoice reconciler.

Shallow embedding of `back/routes/Workdrive.py`, `back/routes/zoho_books.py`
and `back/routes/send_mail.py`.  Network I/O is modelled by passing upstream
responses in as explicit oracle arguments; time is an integer number of
seconds (`datetime.now()` becomes a `now : Int` parameter); Python `None`
becomes `Option`; Python truthiness of strings and lists is made explicit at
each use site.
-/

set_option maxRecDepth 8000

namespace JobCardSystem

/-- The empty string, named so it can be passed as a bare argument. -/
def sEmpty : String := ""

/-- Wall-clock time, in seconds. -/
abbrev Time := Int

/-- `TokenManager.__init__` state (Workdrive.py lines 30-43, zoho_books.py
lines 36-49): an optional access token and an optional absolute expiry. -/
structure TokenManager where
  access_token : Option String
  token_expiry : Option Time
deriving Repr, DecidableEq

/-- A freshly constructed manager: both fields `None`. -/
def TokenManager.init : TokenManager := ⟨none, none⟩

/-- `TokenManager.is_token_valid`: false when `access_token` is falsy
(`None` or the empty string) or `token_expiry` is `None`; otherwise
`datetime.now() < self.token_expiry`. -/
def TokenManager.is_token_valid (m : TokenManager) (now : Time) : Bool :=
  match m.access_token, m.token_expiry with
  | some tok, some exp => !(tok == sEmpty) && decide (now < exp)
  | _, _ => false

/-- `TokenManager.set_token`: stores the token and sets
`token_expiry = datetime.now() + timedelta(seconds=expires_in - 300)`.
No clamping is applied: `expires_in < 300` yields an expiry in the past. -/
def TokenManager.set_token (m : TokenManager) (now : Time) (tok : String)
    (expires_in : Int) : TokenManager :=
  let _ := m
  { access_token := some tok, token_expiry := some (now + (expires_in - 300)) }

/-- Oracle for one POST to the Zoho token endpoint: whether the HTTP status
was non-error (`raise_for_status` passes), and the body's `access_token`
and `expires_in` fields. -/
structure TokenResponse where
  ok : Bool
  access_token : Option String
  expires_in : Option Int
deriving Repr, DecidableEq

/-- FastAPI `HTTPException` as raised by the routes. -/
structure HTTPException where
  status_code : Nat
deriving Repr, DecidableEq

/-- `get_new_access_token` (Workdrive.py lines 68-88): POST the refresh-token
grant; on HTTP error or a falsy `access_token` in the body raise
`HTTPException(500)`; otherwise `manager.set_token(access_token,
data.get("expires_in", 3600))` and return the token. -/
def get_new_access_token (now : Time) (resp : TokenResponse)
    (m : TokenManager) : Except HTTPException (String × TokenManager) :=
  if !resp.ok then .error ⟨500⟩
  else
    match resp.access_token with
    | none => .error ⟨500⟩
    | some tok =>
      if tok == sEmpty then .error ⟨500⟩
      else .ok (tok, m.set_token now tok (resp.expires_in.getD 3600))

/-- `get_valid_access_token` (Workdrive.py lines 91-94, zoho_books.py lines
104-111): return the cached token when valid, else refresh.  The last
component counts network calls made to the token endpoint (0 or 1). -/
def get_valid_access_token (now : Time) (resp : TokenResponse)
    (m : TokenManager) : Except HTTPException (String × TokenManager × Nat) :=
  if m.is_token_valid now then .ok (m.access_token.getD sEmpty, m, 0)
  else
    match get_new_access_token now resp m with
    | .ok (tok, m1) => .ok (tok, m1, 1)
    | .error e => .error e

/-- Oracle for one upstream data call: the HTTP status of the response. -/
structure DataResponse where
  status : Nat
deriving Repr, DecidableEq

/-- `response.raise_for_status()` raises for statuses 400-599; the raised
`HTTPError` is caught and re-raised as `HTTPException(500)`. -/
def raiseForStatusResult (r : DataResponse) : Except HTTPException Nat :=
  if 400 ≤ r.status then .error ⟨500⟩ else .ok r.status

instance {ε α : Type} [DecidableEq ε] [DecidableEq α] :
    DecidableEq (Except ε α) := fun x y =>
  match x, y with
  | .ok a, .ok b =>
    if h : a = b then isTrue (by rw [h]) else isFalse (by simp [h])
  | .error a, .error b =>
    if h : a = b then isTrue (by rw [h]) else isFalse (by simp [h])
  | .ok _, .error _ => isFalse (by simp)
  | .error _, .ok _ => isFalse (by simp)

/-- Observable trace of one gateway request: the access token used on each
upstream data call in order, the number of token-endpoint calls, and the
final outcome. -/
structure GatewayResult where
  dataCallTokens : List String
  tokenEndpointCalls : Nat
  outcome : Except HTTPException Nat
deriving Repr, DecidableEq

/-- The shared gateway protocol of `make_zoho_books_request`
(zoho_books.py lines 113-159) and `fetch_books_invoices` (Workdrive.py
lines 108-152): obtain a valid token, issue the data request; on a 401
refresh unconditionally via `get_new_access_token` and reissue the request
exactly once; then `raise_for_status` on the final response.  `r1` is the
upstream's response to the first data call and `r2` its response to the
retry (consumed only when the first response is a 401). -/
def make_zoho_books_request (now : Time)
    (initTokResp refreshTokResp : TokenResponse) (r1 r2 : DataResponse)
    (m : TokenManager) : GatewayResult :=
  match get_valid_access_token now initTokResp m with
  | .error e => { dataCallTokens := [], tokenEndpointCalls := 0, outcome := .error e }
  | .ok (tok, m1, n1) =>
    if r1.status == 401 then
      match get_new_access_token now refreshTokResp m1 with
      | .error e =>
        { dataCallTokens := [tok], tokenEndpointCalls := n1 + 1, outcome := .error e }
      | .ok (tok2, _m2) =>
        { dataCallTokens := [tok, tok2], tokenEndpointCalls := n1 + 1,
          outcome := raiseForStatusResult r2 }
    else
      { dataCallTokens := [tok], tokenEndpointCalls := n1,
        outcome := raiseForStatusResult r1 }

/-! String literals used by the translated code, named so they can be passed
as function arguments. -/

def sKsh : String := "ksh"

def sKenyanShillings : String := "kenyan shillings"

def sKES : String := "KES"

def sDollars : String := "dollars"

def sUsd : String := "usd"

def sUSD : String := "USD"

def sINV : String := "INV"

def sDot : String := "."

def sDash : String := "-"

def sPaid : String := "paid"

def sOverdue : String := "overdue"

def sUnpaid : String := "unpaid"

def sSent : String := "sent"

def sCommaSpace : String := ", "

def sEllipsisPlus : String := "... +"

def sNoneText : String := "None"

/-! Character-list implementations of the Python string primitives the
routes use (`upper`, `lower`, `strip`, `int`, `split`, `join`), written
over `String.data` so that every definition evaluates by kernel
reduction. -/

/-- Python `str.upper()` (ASCII case mapping). -/
def strUpper (s : String) : String :=
  String.mk (s.data.map Char.toUpper)

/-- Python `str.lower()` (ASCII case mapping). -/
def strLower (s : String) : String :=
  String.mk (s.data.map Char.toLower)

/-- Python `str.strip()`: drop whitespace from both ends. -/
def pyStrip (s : String) : String :=
  String.mk
    (((s.data.dropWhile Char.isWhitespace).reverse.dropWhile
      Char.isWhitespace).reverse)

/-- Decimal-digit parsing of one `strptime` field: all-digit non-empty
input, as accepted by `%Y`/`%m`/`%d`. -/
def parseNat (s : String) : Option Nat :=
  if s.data.isEmpty then none
  else if s.data.all Char.isDigit then
    some (s.data.foldl (fun acc c => acc * 10 + (c.toNat - 48)) 0)
  else none

/-- Split a char list at every occurrence of `sep`, keeping empty pieces. -/
def splitOnCharAux (sep : Char) : List Char → List (List Char)
  | [] => [[]]
  | c :: t =>
    let rest := splitOnCharAux sep t
    if c = sep then [] :: rest
    else
      match rest with
      | h :: t2 => (c :: h) :: t2
      | [] => [[c]]

/-- Python `s.split(sep)` for a one-character separator. -/
def pySplitOnChar (sep : Char) (s : String) : List String :=
  (splitOnCharAux sep s.data).map String.mk

/-- Concatenate char lists with a separator between adjacent pieces. -/
def intercalateChars (sep : List Char) : List (List Char) → List Char
  | [] => []
  | [x] => x
  | x :: y :: t => x ++ sep ++ intercalateChars sep (y :: t)

/-- Python `sep.join(pieces)`. -/
def pyJoin (sep : String) (l : List String) : String :=
  String.mk (intercalateChars sep.data (l.map String.data))

/-- `normalize_currency` (Workdrive.py lines 97-105). -/
def normalize_currency (selected_currency : String) : String :=
  if selected_currency == sEmpty then sEmpty
  else
    let l := strLower selected_currency
    if l == sKsh || l == sKenyanShillings then sKES
    else if l == sDollars || l == sUsd then sUSD
    else strUpper selected_currency

/-- Gregorian leap-year rule, as used by `datetime.strptime` validation. -/
def isLeapYear (y : Nat) : Bool :=
  (y % 4 == 0 && y % 100 != 0) || y % 400 == 0

/-- Number of days in month `m` of year `y`. -/
def daysInMonth (y m : Nat) : Nat :=
  if m == 2 then (if isLeapYear y then 29 else 28)
  else if m == 4 || m == 6 || m == 9 || m == 11 then 30
  else 31

/-- `datetime.strptime(s, "%Y-%m-%d").date()`: three dash-separated decimal
fields with a valid month and day-of-month; the result is encoded as
`y * 10000 + m * 100 + d`, which orders exactly like the date triple.
An invalid input (Python `ValueError`) is `none`. -/
def parseDate (s : String) : Option Nat :=
  match pySplitOnChar '-' s with
  | [ys, ms, ds] =>
    match parseNat ys, parseNat ms, parseNat ds with
    | some y, some m, some d =>
      if y ≤ 9999 && 1 ≤ m && m ≤ 12 && 1 ≤ d && d ≤ daysInMonth y m then
        some (y * 10000 + m * 100 + d)
      else none
    | _, _, _ => none
  | _ => none

/-- One raw invoice object from the Books API, with the four fields
`check_invoices` reads via `inv.get(...)` (absent field = `none`). -/
structure Invoice where
  status : Option String
  invoice_number : Option String
  currency_code : Option String
  date : Option String
deriving Repr, DecidableEq

/-- Currency clause of the filter loop (Workdrive.py lines 256-257): drop
when `api_currency_code` is truthy and `inv_currency != api_currency_code`. -/
def currencyKeep (cur : String) (inv : Invoice) : Bool :=
  !(!(cur == sEmpty) && !(inv.currency_code == some cur))

/-- The `date_to` half of the date clause (Workdrive.py lines 265-268): a
`ValueError` from parsing `date_to` aborts the `try` block, keeping the
invoice. -/
def dateToCheck (date_to : String) (d : Nat) : Bool :=
  if !(date_to == sEmpty) then
    match parseDate date_to with
    | none => true
    | some e => !(decide (e < d))
  else true

/-- Date clause of the filter loop (Workdrive.py lines 258-270): only active
when some bound is given and `inv.get("date")` is truthy; any `ValueError`
inside the `try` is swallowed by `pass`, keeping the invoice. -/
def dateKeep (date_from date_to : String) (inv : Invoice) : Bool :=
  if (!(date_from == sEmpty) || !(date_to == sEmpty))
      && !((inv.date.getD sEmpty) == sEmpty) then
    match parseDate (inv.date.getD sEmpty) with
    | none => true
    | some d =>
      if !(date_from == sEmpty) then
        match parseDate date_from with
        | none => true
        | some start => if d < start then false else dateToCheck date_to d
      else dateToCheck date_to d
  else true

/-- One iteration of the `for status in selected_statuses` loop body
(Workdrive.py lines 277-284). -/
def statusMatches (inv_status : Option String) (status : String) : Bool :=
  let l := strLower status
  (l == sPaid && inv_status == some sPaid)
    || (l == sOverdue && inv_status == some sOverdue)
    || (l == sUnpaid && (inv_status == some sSent || inv_status == some sUnpaid))

/-- Status clause (Workdrive.py lines 272-287): empty `selected_statuses`
keeps everything, otherwise `should_include` is the disjunction over the
requested statuses. -/
def statusKeep (selected_statuses : List String) (inv : Invoice) : Bool :=
  if selected_statuses.isEmpty then true
  else selected_statuses.any (statusMatches inv.status)

/-- Whole body of the invoice filter loop (Workdrive.py lines 251-287): an
invoice's number is appended iff it passes the currency, date and status
clauses in order. -/
def keepInvoice (cur date_from date_to : String)
    (selected_statuses : List String) (inv : Invoice) : Bool :=
  currencyKeep cur inv && dateKeep date_from date_to inv
    && statusKeep selected_statuses inv

/-- Python `str.find(needle)` on char lists: index of the first occurrence
of `needle`, or `none` (Python returns −1). -/
def findSub (needle : List Char) : List Char → Option Nat
  | [] => if needle.isEmpty then some 0 else none
  | c :: t =>
    if needle.isPrefixOf (c :: t) then some 0
    else (findSub needle t).map (· + 1)

/-- Python `s.find(needle, start)`. -/
def pyFindFrom (s needle : String) (start : Nat) : Option Nat :=
  (findSub needle.data (s.data.drop start)).map (· + start)

/-- Python slice `s[a:b]` for `0 ≤ a ≤ b`. -/
def pySlice (s : String) (a b : Nat) : String :=
  String.mk ((s.data.take b).drop a)

/-- One WorkDrive file entry, reduced to the two attributes the extraction
loop reads: `attributes.get("name") or ""` and truthiness of
`attributes.get("is_folder")`. -/
structure FileEntry where
  name : Option String
  is_folder : Bool
deriving Repr, DecidableEq

/-- Invoice-number extraction from one file name (Workdrive.py lines
219-228): uppercase the name, find the first `"INV"`, cut at the next `"."`
(or end of string), slice the original name and strip; a falsy result is
dropped. -/
def extract_invoice_number (file_name : String) : Option String :=
  let upper := strUpper file_name
  match pyFindFrom upper sINV 0 with
  | none => none
  | some start =>
    let endIdx :=
      match pyFindFrom upper sDot start with
      | none => file_name.data.length
      | some e => e
    let inv_no := pyStrip (pySlice file_name start endIdx)
    if inv_no == sEmpty then none else some inv_no

/-- One iteration of the extraction loop (Workdrive.py lines 213-228):
folders are skipped before any name processing. -/
def extractEntry (e : FileEntry) : Option String :=
  if e.is_folder then none
  else extract_invoice_number (e.name.getD sEmpty)

/-- The pure tail of `fetch_workdrive_invoice_numbers` (Workdrive.py lines
212-229), applied to the already-fetched `files_data` array. -/
def fetch_workdrive_invoice_numbers (files_data : List FileEntry) :
    List String :=
  files_data.filterMap extractEntry

/-- Python `book_inv in file_invoice_numbers` where `book_inv` may be
`None`: a `None` never equals a string. -/
def optMem (x : Option String) (files : List String) : Bool :=
  match x with
  | some s => files.contains s
  | none => false

/-- One iteration of the reconciliation loop (Workdrive.py lines 294-299);
the accumulator is `(matched_count, missing_count, missing_list)`. -/
def reconcileStep (files : List String)
    (acc : Nat × Nat × List (Option String)) (b : Option String) :
    Nat × Nat × List (Option String) :=
  if optMem b files then (acc.1 + 1, acc.2.1, acc.2.2)
  else (acc.1, acc.2.1 + 1, acc.2.2 ++ [b])

/-- The reconciliation loop (Workdrive.py lines 291-299). -/
def reconcile (nums : List (Option String)) (files : List String) :
    Nat × Nat × List (Option String) :=
  nums.foldl (reconcileStep files) (0, 0, [])

/-- Extract the strings of an all-`some` list; `none` marks the position
where Python `", ".join` would raise a `TypeError` on a `None` element. -/
def allSome : List (Option String) → Option (List String)
  | [] => some []
  | none :: _ => none
  | some s :: t => (allSome t).map (s :: ·)

/-- `missing_list_text` (Workdrive.py lines 302-306): `"None"` when nothing
is missing, otherwise the comma-join of the first 20 entries, suffixed with
`"... +<missing_count - 20>"` when more than 20 are missing.  `none` models
the `TypeError` crash of joining a `None` element. -/
def missing_list_text_compute (missing_count : Nat)
    (missing_list : List (Option String)) : Option String :=
  if 0 < missing_count then
    match allSome (missing_list.take 20) with
    | none => none
    | some strs =>
      let t := pyJoin sCommaSpace strs
      some (if 20 < missing_count then
        t ++ sEllipsisPlus ++ toString (missing_count - 20) else t)
  else some sNoneText

/-- Truthiness of `ZOHO_BOOKS_2_CONFIG.get("organization_id")`
(Workdrive.py line 245). -/
def orgConfigured (o : Option String) : Bool :=
  match o with
  | some s => !(s == sEmpty)
  | none => false

/-- `WorkdriveCheckRequest` (Workdrive.py lines 22-27). -/
structure CheckRequest where
  currency : Option String
  statuses : Option (List String)
  email : Option String
  date_from : Option String
  date_to : Option String
deriving Repr, DecidableEq

/-- The dict returned by `check_invoices` (Workdrive.py lines 362-374),
extended with two execution observables: the computed `missing_list_text`
string and whether `send_email` was invoked. -/
structure CheckResult where
  success : Bool
  currency : String
  statuses : List String
  books_invoices : Nat
  workdrive_files : Nat
  matched : Nat
  missing : Nat
  missing_list : List (Option String)
  email_sent : Bool
  date_from : String
  date_to : String
  missing_list_text : String
  email_attempted : Bool
deriving Repr, DecidableEq

/-- `api_currency_code = normalize_currency(payload.currency or "")`
(Workdrive.py lines 234, 240). -/
def requestCurrency (payload : CheckRequest) : String :=
  normalize_currency (payload.currency.getD sEmpty)

/-- The `invoice_numbers` list built by the filter loop (Workdrive.py lines
250-287): the numbers of the invoices passing the currency, date and status
clauses, in fetch order. -/
def filteredNumbers (payload : CheckRequest) (all_invoices : List Invoice) :
    List (Option String) :=
  (all_invoices.filter
    (keepInvoice (requestCurrency payload) (payload.date_from.getD sEmpty)
      (payload.date_to.getD sEmpty) (payload.statuses.getD []))).map
    (fun inv => inv.invoice_number)

/-- The guard `if file_invoice_numbers and recipient_email:` (Workdrive.py
line 308) deciding whether the report email is handed to `send_email`;
`recipient_email = (payload.email or "").strip()`. -/
def emailAttempted (payload : CheckRequest) (files_data : List FileEntry) :
    Bool :=
  !(fetch_workdrive_invoice_numbers files_data).isEmpty
    && !(pyStrip (payload.email.getD sEmpty) == sEmpty)

/-- The `check_invoices` endpoint (Workdrive.py lines 232-374), with the
two upstream fetch results passed in as oracles (`all_invoices` is the
Books response's `invoices` array, `files_data` the WorkDrive file list)
and `mailOk` the outcome of the `send_email` call (its failure is caught
and only suppresses `email_sent`).  `none` models an uncaught exception
escaping the endpoint (unset organization id, or the `None`-join crash). -/
def check_invoices (payload : CheckRequest) (org_id : Option String)
    (all_invoices : List Invoice) (files_data : List FileEntry)
    (mailOk : Bool) : Option CheckResult :=
  if orgConfigured org_id then
    match missing_list_text_compute
        (reconcile (filteredNumbers payload all_invoices)
          (fetch_workdrive_invoice_numbers files_data)).2.1
        (reconcile (filteredNumbers payload all_invoices)
          (fetch_workdrive_invoice_numbers files_data)).2.2 with
    | none => none
    | some mtext =>
      some {
        success := true
        currency := requestCurrency payload
        statuses := payload.statuses.getD []
        books_invoices := (filteredNumbers payload all_invoices).length
        workdrive_files := (fetch_workdrive_invoice_numbers files_data).length
        matched := (reconcile (filteredNumbers payload all_invoices)
          (fetch_workdrive_invoice_numbers files_data)).1
        missing := (reconcile (filteredNumbers payload all_invoices)
          (fetch_workdrive_invoice_numbers files_data)).2.1
        missing_list := (reconcile (filteredNumbers payload all_invoices)
          (fetch_workdrive_invoice_numbers files_data)).2.2
        email_sent := emailAttempted payload files_data && mailOk
        date_from := payload.date_from.getD sEmpty
        date_to := payload.date_to.getD sEmpty
        missing_list_text := mtext
        email_attempted := emailAttempted payload files_data }
  else none

/-! ## Helper lemmas -/

theorem reconcile_foldl (files : List String) (nums : List (Option String))
    (acc : Nat × Nat × List (Option String)) :
    nums.foldl (reconcileStep files) acc =
      (acc.1 + nums.countP (fun b => optMem b files),
       acc.2.1 + (nums.filter (fun b => !optMem b files)).length,
       acc.2.2 ++ nums.filter (fun b => !optMem b files)) := by
  induction nums generalizing acc with
  | nil => simp
  | cons b t ih =>
    simp only [List.foldl_cons, ih, reconcileStep, List.countP_cons,
      List.filter_cons]
    by_cases h : optMem b files
    · simp only [h, if_true, Bool.not_true, if_false]
      refine Prod.ext ?_ (Prod.ext ?_ ?_)
      · simp
        omega
      · simp
      · simp
    · simp only [h, if_false, Bool.not_false, if_true]
      refine Prod.ext ?_ (Prod.ext ?_ ?_)
      · simp
      · simp
        omega
      · simp

theorem reconcile_eq (nums : List (Option String)) (files : List String) :
    reconcile nums files =
      (nums.countP (fun b => optMem b files),
       (nums.filter (fun b => !optMem b files)).length,
       nums.filter (fun b => !optMem b files)) := by
  simp [reconcile, reconcile_foldl]

theorem optMem_some (s : String) (files : List String) :
    optMem (some s) files = files.contains s := rfl

/-! ## Concrete fixtures used by the theorems -/

def litA : String := "A"

def litB : String := "B"

def litC : String := "C"

/-- C4: for every filtered accounting invoice-number sequence `nums` (order
and duplicates preserved) and storage candidate collection `files`, the
reconciliation loop computes `matched` as the number of entries of `nums`
present in `files`, `missing` as the number absent, and `missing_list` as
the absent entries in `nums` order, membership being exact string equality;
in particular numbers A,B,C against files A,C give matched 2, missing 1,
missing list ["B"]. -/
theorem reconcile_matched_and_missing (nums files : List String) :
    (reconcile (nums.map some) files).1 =
      (nums.filter (fun a => files.contains a)).length ∧
    (reconcile (nums.map some) files).2.1 =
      (nums.filter (fun a => !files.contains a)).length ∧
    (reconcile (nums.map some) files).2.2 =
      (nums.filter (fun a => !files.contains a)).map some ∧
    reconcile [some litA, some litB, some litC] [litA, litC] =
      (2, 1, [some litB]) := by
  refine ⟨?_, ?_, ?_, by decide⟩
  · rw [reconcile_eq]
    simp [List.countP_eq_length_filter, List.filter_map, Function.comp_def,
      optMem_some]
  · rw [reconcile_eq]
    simp [List.filter_map, Function.comp_def, optMem_some]
  · rw [reconcile_eq]
    simp [List.filter_map, Function.comp_def, optMem_some]

theorem check_invoices_fields (payload : CheckRequest) (org : Option String)
    (inv : List Invoice) (files : List FileEntry) (mailOk : Bool)
    (r : CheckResult)
    (h : check_invoices payload org inv files mailOk = some r) :
    r.success = true ∧
    r.books_invoices = (filteredNumbers payload inv).length ∧
    r.matched = (reconcile (filteredNumbers payload inv)
      (fetch_workdrive_invoice_numbers files)).1 ∧
    r.missing = (reconcile (filteredNumbers payload inv)
      (fetch_workdrive_invoice_numbers files)).2.1 ∧
    r.missing_list = (reconcile (filteredNumbers payload inv)
      (fetch_workdrive_invoice_numbers files)).2.2 ∧
    r.email_attempted = emailAttempted payload files ∧
    r.email_sent = (emailAttempted payload files && mailOk) := by
  unfold check_invoices at h
  cases horg : orgConfigured org with
  | false =>
    rw [horg] at h
    simp at h
  | true =>
    rw [horg] at h
    simp only [if_true] at h
    cases hm : missing_list_text_compute
        (reconcile (filteredNumbers payload inv)
          (fetch_workdrive_invoice_numbers files)).2.1
        (reconcile (filteredNumbers payload inv)
          (fetch_workdrive_invoice_numbers files)).2.2 with
    | none =>
      rw [hm] at h
      simp at h
    | some mtext =>
      rw [hm] at h
      have hr := Option.some.inj h
      subst hr
      exact ⟨rfl, rfl, rfl, rfl, rfl, rfl, rfl⟩

/-- C10: for every successfully returned `check_invoices` result, the
counters are mutually consistent: `matched + missing = books_invoices`,
`missing` equals the length of `missing_list`, and every entry of
`missing_list` is one of the filtered accounting invoice numbers absent
from the storage candidate list. -/
theorem check_invoices_counters_consistent (payload : CheckRequest)
    (org : Option String) (inv : List Invoice) (files : List FileEntry)
    (mailOk : Bool) (r : CheckResult)
    (h : check_invoices payload org inv files mailOk = some r) :
    r.matched + r.missing = r.books_invoices ∧
    r.missing = r.missing_list.length ∧
    (∀ x ∈ r.missing_list, x ∈ filteredNumbers payload inv ∧
      optMem x (fetch_workdrive_invoice_numbers files) = false) := by
  obtain ⟨-, hb, hma, hmi, hml, -, -⟩ :=
    check_invoices_fields payload org inv files mailOk r h
  simp only [reconcile_eq] at hma hmi hml
  refine ⟨?_, ?_, ?_⟩
  · rw [hb, hma, hmi]
    have hlen := List.length_eq_countP_add_countP
      (fun b => optMem b (fetch_workdrive_invoice_numbers files))
      (filteredNumbers payload inv)
    simp only [List.countP_eq_length_filter, decide_not,
      decide_eq_true_eq, Bool.decide_eq_true] at hlen ⊢
    omega
  · rw [hmi, hml]
  · intro x hx
    rw [hml] at hx
    have hx' := List.mem_filter.mp hx
    refine ⟨hx'.1, ?_⟩
    have := hx'.2
    simpa using this

def tokA : String := "tokA"

def tokB : String := "tokB"

/-- C2 counterexample: at `now = 0` a successful acquisition with
`expires_in = 100` stores `token_expiry = -200`, which lies strictly in the
past at the moment it is stored — the code applies no `max(expires_in, 1)`
and no flooring, refuting the claimed non-negativity. -/
theorem set_token_short_ttl_counterexample :
    (TokenManager.init.set_token 0 tokA 100).token_expiry = some (-200) ∧
    ((-200 : Time) < (0 : Time)) := by
  exact ⟨by decide, by decide⟩

/-- C2 amended: the cached expiry is set to `now + (expires_in − 300)` with
no max and no floor; when `expires_in ≤ 300` the stored expiry is at or
before `now`, so the token is invalid at every instant from `now` on, and
when `expires_in > 300` the expiry lies in the future and a non-empty token
is valid until it. -/
theorem set_token_expiry_amended (m : TokenManager) (now : Time)
    (tok : String) (e : Int) :
    (m.set_token now tok e).token_expiry = some (now + (e - 300)) ∧
    (e ≤ 300 → ∀ t : Time, now ≤ t →
      (m.set_token now tok e).is_token_valid t = false) ∧
    (300 < e → (tok == sEmpty) = false → ∀ t : Time, t < now + (e - 300) →
      (m.set_token now tok e).is_token_valid t = true) := by
  refine ⟨rfl, ?_, ?_⟩
  · intro he t ht
    have hlt : ¬ (t < now + (e - 300)) := by linarith
    simp [TokenManager.set_token, TokenManager.is_token_valid, hlt]
  · intro he htok t ht
    simp [TokenManager.set_token, TokenManager.is_token_valid, htok, ht]

/-- C2 amended, witnessed at `now = 0`, `expires_in = 100`, `t = 5`. -/
theorem set_token_expiry_amended_witness :
    (100 : Int) ≤ 300 ∧ (0 : Time) ≤ 5 ∧
    (TokenManager.init.set_token 0 tokA 100).is_token_valid 5 = false :=
  ⟨by decide, by decide,
    (set_token_expiry_amended TokenManager.init 0 tokA 100).2.1 (by decide)
      5 (by decide)⟩

/-- C3: any manager whose token is valid at the call instant returns the
cached token with zero token-endpoint calls; a fresh manager holds no
valid token, so the first `get_valid_access_token` performs exactly one
token-endpoint call and caches the result; any second call at an instant
before the cached expiry performs zero token-endpoint calls and returns
the cached token unchanged (its endpoint oracle `resp2` is arbitrary — the
endpoint is not contacted), so exactly one network call occurs across the
two calls. -/
theorem cached_token_single_acquisition (now now2 : Time)
    (resp resp2 : TokenResponse) (tok : String)
    (hok : resp.ok = true) (htok : resp.access_token = some tok)
    (hne : (tok == sEmpty) = false)
    (hwin : now2 < now + (resp.expires_in.getD 3600 - 300)) :
    (∀ (m : TokenManager) (t : Time) (rsp : TokenResponse),
      m.is_token_valid t = true →
      get_valid_access_token t rsp m = .ok (m.access_token.getD sEmpty, m, 0)) ∧
    TokenManager.init.is_token_valid now = false ∧
    get_valid_access_token now resp TokenManager.init =
      .ok (tok, TokenManager.init.set_token now tok (resp.expires_in.getD 3600), 1) ∧
    get_valid_access_token now2 resp2
      (TokenManager.init.set_token now tok (resp.expires_in.getD 3600)) =
      .ok (tok, TokenManager.init.set_token now tok (resp.expires_in.getD 3600), 0) := by
  refine ⟨?_, rfl, ?_, ?_⟩
  · intro m t rsp hv
    simp [get_valid_access_token, hv]
  · simp [get_valid_access_token, TokenManager.init, TokenManager.is_token_valid,
      get_new_access_token, hok, htok, hne]
  · have hval : (TokenManager.init.set_token now tok
        (resp.expires_in.getD 3600)).is_token_valid now2 = true := by
      simp [TokenManager.set_token, TokenManager.is_token_valid, hne, hwin]
    simp only [get_valid_access_token, hval, if_true]
    simp [TokenManager.set_token]

/-- C3 witnessed at `now = 0`, `expires_in = 3600`, second call at
`now2 = 3000 < 3300`; the second call's endpoint oracle is a failing
response, showing it is never consulted. -/
theorem cached_token_single_acquisition_witness :
    (⟨true, some tokA, some 3600⟩ : TokenResponse).ok = true ∧
    TokenManager.init.is_token_valid 0 = false ∧
    get_valid_access_token 3000 ⟨false, none, none⟩
      (TokenManager.init.set_token 0 tokA 3600) =
      .ok (tokA, TokenManager.init.set_token 0 tokA 3600, 0) := by
  refine ⟨rfl, ?_, ?_⟩
  · exact (cached_token_single_acquisition 0 3000 ⟨true, some tokA, some 3600⟩
      ⟨false, none, none⟩ tokA rfl rfl (by decide) (by decide)).2.1
  · exact (cached_token_single_acquisition 0 3000 ⟨true, some tokA, some 3600⟩
      ⟨false, none, none⟩ tokA rfl rfl (by decide) (by decide)).2.2.2

def trInit : TokenResponse := ⟨true, some tokA, some 3600⟩

def trRefresh : TokenResponse := ⟨true, some tokB, some 3600⟩

def r401 : DataResponse := ⟨401⟩

def r200 : DataResponse := ⟨200⟩

/-- C1: for a gateway request whose initial token step succeeded, (a) a
401 first response triggers one unconditional token refresh (one extra
token-endpoint call regardless of cache validity) and exactly one retry
carrying the new token — two upstream data calls in total — whose outcome
is the retried response's: error status (≥ 400) fails the call, success
status returns it; (b) if the refresh itself fails, no retry is issued;
(c) a first response that is an error status other than 401 fails the
call after exactly one upstream data call, with no retry. -/
theorem gateway_single_retry_on_401 (now : Time)
    (tr1 tr2 : TokenResponse) (r1 r2 : DataResponse) (m m1 : TokenManager)
    (tok : String) (n1 : Nat)
    (hfirst : get_valid_access_token now tr1 m = .ok (tok, m1, n1)) :
    (r1.status = 401 → ∀ tok2 m2,
      get_new_access_token now tr2 m1 = .ok (tok2, m2) →
      (make_zoho_books_request now tr1 tr2 r1 r2 m).dataCallTokens =
        [tok, tok2] ∧
      (make_zoho_books_request now tr1 tr2 r1 r2 m).tokenEndpointCalls =
        n1 + 1 ∧
      (400 ≤ r2.status →
        (make_zoho_books_request now tr1 tr2 r1 r2 m).outcome =
          .error ⟨500⟩) ∧
      (r2.status < 400 →
        (make_zoho_books_request now tr1 tr2 r1 r2 m).outcome =
          .ok r2.status)) ∧
    (r1.status = 401 → ∀ e, get_new_access_token now tr2 m1 = .error e →
      (make_zoho_books_request now tr1 tr2 r1 r2 m).dataCallTokens = [tok] ∧
      (make_zoho_books_request now tr1 tr2 r1 r2 m).tokenEndpointCalls =
        n1 + 1 ∧
      (make_zoho_books_request now tr1 tr2 r1 r2 m).outcome = .error e) ∧
    (r1.status ≠ 401 → 400 ≤ r1.status →
      (make_zoho_books_request now tr1 tr2 r1 r2 m).dataCallTokens = [tok] ∧
      (make_zoho_books_request now tr1 tr2 r1 r2 m).tokenEndpointCalls = n1 ∧
      (make_zoho_books_request now tr1 tr2 r1 r2 m).outcome =
        .error ⟨500⟩) := by
  refine ⟨?_, ?_, ?_⟩
  · intro h401 tok2 m2 hnew
    have hbeq : (r1.status == 401) = true := by simp [h401]
    simp only [make_zoho_books_request, hfirst, hbeq, if_true, hnew]
    refine ⟨by trivial, by trivial, ?_, ?_⟩
    · intro h4
      simp [raiseForStatusResult, h4]
    · intro h4
      have : ¬ (400 ≤ r2.status) := by omega
      simp [raiseForStatusResult, this]
  · intro h401 e hnew
    have hbeq : (r1.status == 401) = true := by simp [h401]
    simp only [make_zoho_books_request, hfirst, hbeq, if_true, hnew]
    exact ⟨by trivial, by trivial, by trivial⟩
  · intro hne h4
    have hbeq : (r1.status == 401) = false := by simp [hne]
    simp only [make_zoho_books_request, hfirst, hbeq, Bool.false_eq_true,
      if_false]
    refine ⟨by trivial, by trivial, ?_⟩
    simp [raiseForStatusResult, h4]

/-- C1 witnessed: fresh manager, first data response 401, retried
response 200 — two data calls with the old and the refreshed token, two
token-endpoint calls (initial acquisition plus unconditional refresh),
final outcome 200. -/
theorem gateway_single_retry_on_401_witness :
    (make_zoho_books_request 0 trInit trRefresh r401 r200
      TokenManager.init).dataCallTokens = [tokA, tokB] ∧
    (make_zoho_books_request 0 trInit trRefresh r401 r200
      TokenManager.init).tokenEndpointCalls = 2 ∧
    (make_zoho_books_request 0 trInit trRefresh r401 r200
      TokenManager.init).outcome = .ok 200 := by
  have h := gateway_single_retry_on_401 0 trInit trRefresh r401 r200
    TokenManager.init (TokenManager.init.set_token 0 tokA 3600) tokA 1
    (by decide)
  have h2 := h.1 (by decide) tokB (TokenManager.init.set_token 0 tokB 3600)
    (by decide)
  exact ⟨h2.1, h2.2.1, h2.2.2.2 (by decide)⟩

def fMarker : String := "invoice_no_marker.pdf"

def fMarkerOut : String := "invoice_no_marker"

def fInvPdf : String := "INV-2024-001.pdf"

def fInvOut : String := "INV-2024-001"

def fReceipt : String := "receipt.pdf"

def fFolder : String := "folder_INV99"

/-- C6 counterexample: the claim says `"invoice_no_marker.pdf"` is dropped,
but the case-insensitive search finds `"INV"` at position 0 of
`"INVOICE_NO_MARKER.PDF"`, so the file yields the candidate
`"invoice_no_marker"` (the text up to the first `"."`). -/
theorem extract_marker_not_dropped_counterexample :
    extractEntry ⟨some fMarker, false⟩ = some fMarkerOut := by decide

/-- C6 amended: folder entries are dropped regardless of name; a name whose
uppercase form contains no `"INV"` is dropped; `"INV-2024-001.pdf"` yields
`"INV-2024-001"`; but `"invoice_no_marker.pdf"` yields
`"invoice_no_marker"` (the `"INV"` inside `"invoice"` matches) rather than
being dropped. -/
theorem extract_invoice_number_amended :
    (∀ e : FileEntry, e.is_folder = true → extractEntry e = none) ∧
    (∀ name : String, findSub sINV.data (strUpper name).data = none →
      extract_invoice_number name = none) ∧
    extract_invoice_number fInvPdf = some fInvOut ∧
    extract_invoice_number fMarker = some fMarkerOut ∧
    extract_invoice_number fReceipt = none := by
  refine ⟨?_, ?_, by decide, by decide, by decide⟩
  · intro e he
    simp [extractEntry, he]
  · intro name h
    simp [extract_invoice_number, pyFindFrom, List.drop_zero, h]

/-- C6 amended, witnessed on the folder entry `"folder_INV99"` and the
marker-free name `"receipt.pdf"`. -/
theorem extract_invoice_number_amended_witness :
    extractEntry ⟨some fFolder, true⟩ = none ∧
    extract_invoice_number fReceipt = none :=
  ⟨extract_invoice_number_amended.1 ⟨some fFolder, true⟩ rfl,
   extract_invoice_number_amended.2.1 fReceipt (by decide)⟩

def nN1 : String := "N1"

def nN2 : String := "N2"

def nN3 : String := "N3"

def nN4 : String := "N4"

def invPaid : Invoice := ⟨some sPaid, some nN1, none, none⟩

def invSentFx : Invoice := ⟨some sSent, some nN2, none, none⟩

def invOverdueFx : Invoice := ⟨some sOverdue, some nN3, none, none⟩

def invUnpaidFx : Invoice := ⟨some sUnpaid, some nN4, none, none⟩

/-- C5: for an invoice that passed the currency and date clauses, an empty
requested-status list keeps it, and a non-empty list keeps it iff some
requested status matches under the mapping paid→"paid",
overdue→"overdue", unpaid→{"sent","unpaid"}; concretely, invoices with
statuses paid, sent, overdue, unpaid filtered by ["unpaid"] yield exactly
the sent and unpaid entries. -/
theorem status_filter_mapping (cur df dt : String) (sts : List String)
    (inv : Invoice) (hc : currencyKeep cur inv = true)
    (hd : dateKeep df dt inv = true) :
    (sts = [] → keepInvoice cur df dt sts inv = true) ∧
    (sts ≠ [] → (keepInvoice cur df dt sts inv = true ↔
      ∃ s ∈ sts,
        (strLower s = sPaid ∧ inv.status = some sPaid) ∨
        (strLower s = sOverdue ∧ inv.status = some sOverdue) ∨
        (strLower s = sUnpaid ∧
          (inv.status = some sSent ∨ inv.status = some sUnpaid)))) ∧
    ([invPaid, invSentFx, invOverdueFx, invUnpaidFx].filter
        (keepInvoice sEmpty sEmpty sEmpty [sUnpaid])).map
        (fun i => i.invoice_number) = [some nN2, some nN4] := by
  refine ⟨?_, ?_, by decide⟩
  · intro hnil
    subst hnil
    simp [keepInvoice, hc, hd, statusKeep]
  · intro hne
    have hie : sts.isEmpty = false := by
      cases sts with
      | nil => exact absurd rfl hne
      | cons a t => rfl
    simp only [keepInvoice, hc, hd, Bool.true_and, statusKeep, hie,
      Bool.false_eq_true, if_false, List.any_eq_true, statusMatches]
    constructor
    · rintro ⟨s, hs, hm⟩
      refine ⟨s, hs, ?_⟩
      simp only [Bool.or_eq_true, Bool.and_eq_true, beq_iff_eq] at hm
      tauto
    · rintro ⟨s, hs, hm⟩
      refine ⟨s, hs, ?_⟩
      simp only [Bool.or_eq_true, Bool.and_eq_true, beq_iff_eq]
      tauto

/-- C5 witnessed: the sent-status invoice with requested list
`["unpaid"]`. -/
theorem status_filter_mapping_witness :
    currencyKeep sEmpty invSentFx = true ∧
    dateKeep sEmpty sEmpty invSentFx = true ∧
    keepInvoice sEmpty sEmpty sEmpty [sUnpaid] invSentFx = true :=
  ⟨by decide, by decide,
    ((status_filter_mapping sEmpty sEmpty sEmpty [sUnpaid] invSentFx
      (by decide) (by decide)).2.1 (by decide)).mpr
      ⟨sUnpaid, by decide, by decide⟩⟩

/-- The invoice date actually parsed on the date-clause code path: `none`
when the field is absent, empty (the `try` body is not entered) or
unparseable (`ValueError`). -/
def invDate (inv : Invoice) : Option Nat :=
  if (inv.date.getD sEmpty) == sEmpty then none
  else parseDate (inv.date.getD sEmpty)

/-- C7: with a well-formed date filter having at least one bound, the date
clause keeps every invoice whose date is absent or unparseable, and drops
an invoice exactly when its parsed date lies strictly outside
`[date_from, date_to]` (strictly before a given `date_from` or strictly
after a given `date_to`). -/
theorem date_filter_strictly_outside (df dt : String) (inv : Invoice)
    (hg : ¬(df = sEmpty ∧ dt = sEmpty))
    (hdf : df = sEmpty ∨ (parseDate df).isSome = true)
    (hdt : dt = sEmpty ∨ (parseDate dt).isSome = true) :
    (invDate inv = none → dateKeep df dt inv = true) ∧
    (dateKeep df dt inv = false ↔
      ∃ d, invDate inv = some d ∧
        ((∃ s, df ≠ sEmpty ∧ parseDate df = some s ∧ d < s) ∨
         (∃ e, dt ≠ sEmpty ∧ parseDate dt = some e ∧ e < d))) := by
  have hcond : (!(df == sEmpty) || !(dt == sEmpty)) = true := by
    rcases not_and_or.mp hg with h | h <;> simp [h]
  have hiff : dateKeep df dt inv = false ↔
      ∃ d, invDate inv = some d ∧
        ((∃ s, df ≠ sEmpty ∧ parseDate df = some s ∧ d < s) ∨
         (∃ e, dt ≠ sEmpty ∧ parseDate dt = some e ∧ e < d)) := by
    by_cases hDe : ((inv.date.getD sEmpty) == sEmpty) = true
    · simp [dateKeep, invDate, hDe]
    · have hDe' : ((inv.date.getD sEmpty) == sEmpty) = false := by
        simpa using hDe
      cases hP : parseDate (inv.date.getD sEmpty) with
      | none => simp [dateKeep, invDate, hDe', hcond, hP]
      | some d =>
        have hd : invDate inv = some d := by simp [invDate, hDe', hP]
        by_cases hA : df = sEmpty
        · have hB : dt ≠ sEmpty := fun hB => hg ⟨hA, hB⟩
          obtain ⟨e, he⟩ := Option.isSome_iff_exists.mp (hdt.resolve_left hB)
          simp [dateKeep, dateToCheck, hDe', hcond, hP, hd, hA, hB, he]
        · obtain ⟨s, hs⟩ := Option.isSome_iff_exists.mp (hdf.resolve_left hA)
          by_cases hds : d < s
          · simp [dateKeep, hDe', hcond, hP, hd, hA, hs, hds]
          · by_cases hB : dt = sEmpty
            · simp [dateKeep, dateToCheck, hDe', hcond, hP, hd, hA, hs, hds,
                hB]
            · obtain ⟨e, he⟩ :=
                Option.isSome_iff_exists.mp (hdt.resolve_left hB)
              simp [dateKeep, dateToCheck, hDe', hcond, hP, hd, hA, hs, hds,
                hB, he]
  refine ⟨?_, hiff⟩
  intro hn
  cases hk : dateKeep df dt inv with
  | false =>
    exfalso
    obtain ⟨d, hdd, -⟩ := hiff.mp hk
    rw [hn] at hdd
    exact Option.noConfusion hdd
  | true => rfl

def dFromFx : String := "2024-01-01"

def dOldFx : String := "2023-12-31"

def dBadFx : String := "not-a-date"

def invOldFx : Invoice := ⟨none, some nN1, none, some dOldFx⟩

def invBadDateFx : Invoice := ⟨none, some nN2, none, some dBadFx⟩

/-- C7 witnessed: with `date_from = "2024-01-01"` an invoice dated
`"2023-12-31"` is dropped and an invoice with unparseable date
`"not-a-date"` is kept. -/
theorem date_filter_strictly_outside_witness :
    dateKeep dFromFx sEmpty invOldFx = false ∧
    dateKeep dFromFx sEmpty invBadDateFx = true :=
  ⟨(date_filter_strictly_outside dFromFx sEmpty invOldFx (by decide)
      (Or.inr (by decide)) (Or.inl rfl)).2.mpr
      ⟨20231231, by decide,
        Or.inl ⟨20240101, by decide, by decide, by decide⟩⟩,
   (date_filter_strictly_outside dFromFx sEmpty invBadDateFx (by decide)
      (Or.inr (by decide)) (Or.inl rfl)).1 (by decide)⟩

theorem allSome_map_some (xs : List String) :
    allSome (xs.map some) = some xs := by
  induction xs with
  | nil => rfl
  | cons a t ih => simp [allSome, ih]

theorem allSome_of_forall_isSome (l : List (Option String))
    (h : ∀ x ∈ l, x.isSome = true) : ∃ strs, allSome l = some strs := by
  induction l with
  | nil => exact ⟨[], rfl⟩
  | cons a t ih =>
    obtain ⟨s, hs⟩ := Option.isSome_iff_exists.mp (h a (by simp))
    obtain ⟨strs, hstrs⟩ := ih (fun x hx => h x (by simp [hx]))
    subst hs
    exact ⟨s :: strs, by simp [allSome, hstrs]⟩

def sNum : String := "NUM"

def orgFx : String := "org1"

def payloadEmpty : CheckRequest := ⟨none, none, none, none, none⟩

def invoices25 : List Invoice :=
  (List.range 25).map (fun i => ⟨some sPaid, some (sNum ++ toString i),
    none, none⟩)

def nums25 : List String :=
  (List.range 25).map (fun i => sNum ++ toString i)

/-- C8: when `n > 0` invoice numbers are missing, the report text renders
the comma-join of at most the first 20 missing entries, suffixed with
`"... +" ++ (n − 20)` exactly when `n > 20`; concretely, running the
endpoint on 25 invoices with no storage files yields a report of the first
20 numbers plus `"... +5"` while the returned `missing_list` still holds
all 25 entries. -/
theorem missing_report_truncation :
    (∀ l : List String, l ≠ [] →
      (l.length ≤ 20 → missing_list_text_compute l.length (l.map some) =
        some (pyJoin sCommaSpace (l.take 20))) ∧
      (20 < l.length → missing_list_text_compute l.length (l.map some) =
        some (pyJoin sCommaSpace (l.take 20) ++ sEllipsisPlus ++
          toString (l.length - 20)))) ∧
    (check_invoices payloadEmpty (some orgFx) invoices25 [] true).map
      (fun r => (r.missing, r.missing_list.length, r.missing_list_text)) =
      some (25, 25, pyJoin sCommaSpace (nums25.take 20) ++ sEllipsisPlus ++
        toString 5) := by
  refine ⟨?_, by decide⟩
  intro l hne
  have hpos : 0 < l.length := List.length_pos.mpr hne
  have htake : (l.map some).take 20 = (l.take 20).map some :=
    (List.map_take some l 20).symm
  constructor
  · intro hle
    have h20 : ¬ (20 < l.length) := by omega
    unfold missing_list_text_compute
    rw [htake, allSome_map_some]
    simp [hpos, h20]
  · intro h20
    unfold missing_list_text_compute
    rw [htake, allSome_map_some]
    simp [hpos, h20]

/-- C8 witnessed: a three-entry missing list renders as the plain join,
with no overflow suffix. -/
theorem missing_report_truncation_witness :
    ([litA, litB, litC] : List String) ≠ [] ∧
    missing_list_text_compute 3 [some litA, some litB, some litC] =
      some (pyJoin sCommaSpace [litA, litB, litC]) :=
  ⟨by decide,
   ((missing_report_truncation.1 [litA, litB, litC] (by decide)).1
     (by decide))⟩

/-- C9: whenever the organization id is configured and every fetched
invoice carries an invoice number, `check_invoices` returns a successful
result (never throws): the report email is handed to the mail collaborator
exactly when the storage fetch produced at least one candidate file and a
non-blank recipient was supplied, and a mail-delivery failure only clears
`email_sent` — a successful result is returned either way. -/
theorem email_attempt_and_failure_swallowed (payload : CheckRequest)
    (org : Option String) (inv : List Invoice) (files : List FileEntry)
    (mailOk : Bool) (horg : orgConfigured org = true)
    (hnum : ∀ i ∈ inv, i.invoice_number.isSome = true) :
    ∃ r, check_invoices payload org inv files mailOk = some r ∧
      r.success = true ∧
      r.email_attempted = emailAttempted payload files ∧
      r.email_sent = (emailAttempted payload files && mailOk) := by
  have hml : ∀ x ∈ (reconcile (filteredNumbers payload inv)
      (fetch_workdrive_invoice_numbers files)).2.2, x.isSome = true := by
    intro x hx
    rw [reconcile_eq] at hx
    have hx' := (List.mem_filter.mp hx).1
    simp only [filteredNumbers, List.mem_map] at hx'
    obtain ⟨i, hi, rfl⟩ := hx'
    exact hnum i (List.mem_filter.mp hi).1
  obtain ⟨strs, hstrs⟩ := allSome_of_forall_isSome
    ((reconcile (filteredNumbers payload inv)
      (fetch_workdrive_invoice_numbers files)).2.2.take 20)
    (fun x hx => hml x (List.take_subset 20 _ hx))
  have htext : ∃ t, missing_list_text_compute
      (reconcile (filteredNumbers payload inv)
        (fetch_workdrive_invoice_numbers files)).2.1
      (reconcile (filteredNumbers payload inv)
        (fetch_workdrive_invoice_numbers files)).2.2 = some t := by
    unfold missing_list_text_compute
    by_cases hpos : 0 < (reconcile (filteredNumbers payload inv)
        (fetch_workdrive_invoice_numbers files)).2.1
    · simp only [hpos, if_true, hstrs]
      exact ⟨_, rfl⟩
    · simp [hpos]
  obtain ⟨t, ht⟩ := htext
  unfold check_invoices
  simp only [horg, if_true, ht]
  exact ⟨_, rfl, rfl, rfl, rfl⟩

def sMailAddr : String := " x@y.z "

def payloadMail : CheckRequest := ⟨none, none, some sMailAddr, none, none⟩

def fileInvFx : FileEntry := ⟨some fInvPdf, false⟩

/-- C9 witnessed: configured org, one invoice, one storage file, recipient
supplied, mail delivery failing — the call still returns a successful
result with `email_attempted = true` and `email_sent = false`. -/
theorem email_attempt_and_failure_swallowed_witness :
    orgConfigured (some orgFx) = true ∧
    (∃ r, check_invoices payloadMail (some orgFx) [invSentFx] [fileInvFx]
        false = some r ∧
      r.success = true ∧
      r.email_attempted = emailAttempted payloadMail [fileInvFx] ∧
      r.email_sent = (emailAttempted payloadMail [fileInvFx] && false)) :=
  ⟨by decide,
   email_attempt_and_failure_swallowed payloadMail (some orgFx) [invSentFx]
     [fileInvFx] false (by decide) (by decide)⟩

def resC10 : CheckResult :=
  ⟨true, sEmpty, [], 1, 0, 0, 1, [some nN1], false, sEmpty, sEmpty, nN1,
    false⟩

/-- C10 witnessed: one paid invoice, no storage files — counters 0 matched,
1 missing, 1 books invoice, consistent with the one-element missing
list. -/
theorem check_invoices_counters_consistent_witness :
    check_invoices payloadEmpty (some orgFx) [invPaid] [] true =
      some resC10 ∧
    resC10.matched + resC10.missing = resC10.books_invoices ∧
    resC10.missing = resC10.missing_list.length :=
  ⟨by decide,
   (check_invoices_counters_consistent payloadEmpty (some orgFx) [invPaid]
     [] true resC10 (by decide)).1,
   (check_invoices_counters_consistent payloadEmpty (some orgFx) [invPaid]
     [] true resC10 (by decide)).2.1⟩

end JobCardSystem
